import Mathlib

/-!
Verification of the `@prz/agent-core` orchestration pipeline and preference
model (TypeScript sources `src/pipeline/Pipeline.ts`, `src/types.ts`,
`src/feedback/PreferenceModel.ts`).

The embedding is a value-semantics translation of the source:
* JavaScript numbers are modelled as `ℚ`; every numeric literal in the source
  (0.7, 0.85, 0.9, ...) is an exact decimal and every comparison the claims
  exercise is far from a floating-point tie, so rational arithmetic is faithful.
* Mutable objects (`PipelineContext`, the preference-model state) become
  immutable structures threaded through functions.
* `Date.now()` timestamps and the simulated execution latency are wall-clock
  effects with no bearing on any claim; event metadata timestamps are dropped
  and `ExecutionResult.metrics.duration` is modelled as 0.
* Event handlers (`EventHandler`) become total functions
  `PipelineEvent → PipelineContext → PipelineContext`.
-/

set_option maxRecDepth 8192

-- The Batteries `Rat` arithmetic operations are shipped `@[irreducible]`,
-- which blocks `decide`-style evaluation of concrete pipeline runs; restore
-- the ordinary reducibility for this development.
attribute [local semireducible] Rat.add Rat.mul Rat.inv Rat.sub

/-- Intent categories, `IntentType` in `src/types.ts` (string enum). -/
inductive IntentType where
  | VIBE_CHECK
  | MOVE_MAKE
  | CLARITY_CALL
  | RAPPORT_BUILD
deriving DecidableEq, Repr

/-- Strategy categories, `StrategyType` in `src/types.ts` (string enum). -/
inductive StrategyType where
  | AUTONOMOUS
  | CONFIRMATION
  | GUIDED
  | DELEGATED
  | LEARNING
deriving DecidableEq, Repr

/-- Pipeline stage identifiers, `PipelineStage` in `src/types.ts`. -/
inductive PipelineStage where
  | INTENT_CLASSIFICATION
  | CONFIDENCE_GATING
  | STRATEGY_SELECTION
  | EXECUTION
  | ANTI_PATTERN_DETECTION
  | FEEDBACK_COLLECTION
deriving DecidableEq, Repr

/-- The runtime string value of each `IntentType` enum member. -/
def intentTypeStr : IntentType → String
  | .VIBE_CHECK => "vibe_check"
  | .MOVE_MAKE => "move_make"
  | .CLARITY_CALL => "clarity_call"
  | .RAPPORT_BUILD => "rapport_build"

/-- The runtime string value of each `StrategyType` enum member. -/
def strategyTypeStr : StrategyType → String
  | .AUTONOMOUS => "autonomous"
  | .CONFIRMATION => "confirmation"
  | .GUIDED => "guided"
  | .DELEGATED => "delegated"
  | .LEARNING => "learning"

/-- `ConfidenceScore` from `src/types.ts`: four sub-scores plus the aggregate. -/
structure ConfidenceScore where
  patternMatch : ℚ
  clarity : ℚ
  templateCoverage : ℚ
  historicalSuccess : ℚ
  overall : ℚ
deriving DecidableEq, Repr

/-- `ClassifiedIntent` from `src/types.ts`.  The `extractedEntities` record is
always `{}` in the default classifier and is read by no modelled code, and the
`timestamp` is a wall-clock value; both are dropped. -/
structure ClassifiedIntent where
  type : IntentType
  confidence : ConfidenceScore
  rawInput : String
deriving DecidableEq, Repr

/-- `ExecutionStrategy` from `src/types.ts`.  `parameters` is always `{}` in
the default handler; it is kept as an (empty) association list. -/
structure ExecutionStrategy where
  type : StrategyType
  confidence : ℚ
  reasoning : String
  parameters : List (String × String)
deriving DecidableEq, Repr

/-- Metrics of an `ExecutionResult`.  `duration` is `Date.now() - startTime`
in the source (wall clock, always ≥ 0); the stub executor's elapsed time is
modelled as 0. -/
structure ExecutionMetrics where
  duration : ℚ
  tokensUsed : Option ℚ
  retriesAttempted : ℚ
deriving DecidableEq, Repr

/-- `ExecutionResult` from `src/types.ts`.  `output` is `any` in the source;
the default executor only ever stores a string (or `null` on the unreachable
failure path, modelled as `none`). -/
structure ExecutionResult where
  success : Bool
  output : Option String
  error : Option String
  metrics : ExecutionMetrics
deriving DecidableEq, Repr

/-- `AntiPatternType` from `src/types.ts`. -/
inductive AntiPatternType where
  | INFINITE_CLARIFICATION
  | STUCK_LOOP
  | CONTEXT_DRIFT
  | SCOPE_CREEP
  | HALLUCINATION_SPIRAL
deriving DecidableEq, Repr

/-- `AntiPattern` from `src/types.ts`. -/
structure AntiPattern where
  type : AntiPatternType
  severity : ℚ
  evidence : List String
  recommendedPivot : String
deriving DecidableEq, Repr

/-- Implicit feedback signals, the `implicit` record of `UserFeedback`. -/
structure ImplicitFeedback where
  taskCompleted : Bool
  timeToCompletion : ℚ
  editsMade : ℚ
deriving DecidableEq, Repr

/-- `UserFeedback` from `src/types.ts`.  `rating` is declared required in the
TypeScript interface but `feedbackToReward` guards it with
`!== undefined`, so it is modelled as optional.  The `explicit`
liked/disliked lists are read by no modelled code and are dropped. -/
structure UserFeedback where
  rating : Option ℚ
  implicit : Option ImplicitFeedback
deriving DecidableEq, Repr

/-- The stage-tagged `data: any` payload of a `PipelineEvent`, as built at the
six `emit` call sites of `Pipeline.ts`.  The anti-pattern-detection event
carries `{ history: context.history }` in the source — a live, self-referential
reference to the session history that no modelled code ever reads through the
event; it is modelled as the bare tag `historyData`. -/
inductive EventData where
  | inputData (input : String)
  | intentData (intent : Option ClassifiedIntent)
  | historyData
  | execData (intent : Option ClassifiedIntent) (strategy : Option ExecutionStrategy)
  | feedbackData (feedback : UserFeedback)
deriving DecidableEq, Repr

/-- `PipelineEvent` from `src/types.ts`.  The metadata record carries a
wall-clock timestamp plus the session/user ids already present on the context;
it is dropped. -/
structure PipelineEvent where
  stage : PipelineStage
  data : EventData
deriving DecidableEq, Repr

/-- `PipelineContext` from `src/types.ts`. -/
structure PipelineContext where
  sessionId : String
  userId : Option String
  history : List PipelineEvent
  currentIntent : Option ClassifiedIntent
  selectedStrategy : Option ExecutionStrategy
  executionResult : Option ExecutionResult
  antiPatternDetected : Option AntiPattern
deriving DecidableEq, Repr

/-- `PipelineConfig` from `src/types.ts`. -/
structure PipelineConfig where
  confidenceThreshold : ℚ
  maxClarificationAttempts : ℕ
  enableAntiPatternDetection : Bool
  enablePreferenceLearning : Bool
  llmProvider : String
  debug : Bool
deriving DecidableEq, Repr

/-- `DEFAULT_CONFIG` from `src/types.ts`. -/
def DEFAULT_CONFIG : PipelineConfig :=
  { confidenceThreshold := 7/10
    maxClarificationAttempts := 3
    enableAntiPatternDetection := true
    enablePreferenceLearning := true
    llmProvider := "gpt-4"
    debug := false }

/-- Contiguous substring test on character lists, the semantics of JavaScript
`String.prototype.includes` for the ASCII needles used by the classifier. -/
def hasInfix (haystack needle : List Char) : Bool :=
  needle.isPrefixOf haystack ||
    match haystack with
    | [] => false
    | _ :: t => hasInfix t needle

/-- `s.includes(sub)` of JavaScript, on Lean strings. -/
def jsIncludes (s sub : String) : Bool :=
  hasInfix s.toList sub.toList

/-- `s.toLowerCase()` of JavaScript on the ASCII range (`Char.toLower` is the
ASCII case mapping); written by mapping over the character list so that it
reduces in the kernel. -/
def jsToLowerCase (s : String) : String :=
  String.mk (s.data.map Char.toLower)

/-- `Pipeline.classifyIntent` (Pipeline.ts lines 248–290): rule-based
classification over the lower-cased input, with fixed `templateCoverage` 0.75
and `historicalSuccess` 0.8 and `overall` the mean of the four sub-scores. -/
def classifyIntent (input : String) : ClassifiedIntent :=
  let lowerInput := jsToLowerCase input
  let tpc :=
    if jsIncludes lowerInput "how" || jsIncludes lowerInput "what" ||
        jsIncludes lowerInput "why" then
      (IntentType.VIBE_CHECK, (8 : ℚ)/10, (85 : ℚ)/100)
    else if jsIncludes lowerInput "create" || jsIncludes lowerInput "build" ||
        jsIncludes lowerInput "make" then
      (IntentType.MOVE_MAKE, 85/100, 9/10)
    else if jsIncludes lowerInput "?" || lowerInput.length < 10 then
      (IntentType.CLARITY_CALL, 6/10, 5/10)
    else
      (IntentType.RAPPORT_BUILD, 7/10, 7/10)
  { type := tpc.1
    confidence :=
      { patternMatch := tpc.2.1
        clarity := tpc.2.2
        templateCoverage := 3/4
        historicalSuccess := 4/5
        overall := (tpc.2.1 + tpc.2.2 + 3/4 + 4/5) / 4 }
    rawInput := input }

/-- The confidence-gating stage logic (Pipeline.ts lines 190–202): when
`overall` is strictly below the configured threshold the intent's `type` is
overwritten with `CLARITY_CALL`; nothing else is touched. -/
def gateIntent (cfg : PipelineConfig) (intent : ClassifiedIntent) : ClassifiedIntent :=
  if intent.confidence.overall < cfg.confidenceThreshold then
    { intent with type := .CLARITY_CALL }
  else
    intent

/-- `Pipeline.selectStrategy` (Pipeline.ts lines 295–322). -/
def selectStrategy (intent : ClassifiedIntent) : ExecutionStrategy :=
  let t : StrategyType :=
    match intent.type with
    | .VIBE_CHECK => .AUTONOMOUS
    | .MOVE_MAKE =>
        if (9 : ℚ)/10 < intent.confidence.overall then .AUTONOMOUS else .CONFIRMATION
    | .CLARITY_CALL => .GUIDED
    | .RAPPORT_BUILD => .AUTONOMOUS
  { type := t
    confidence := 85/100
    reasoning :=
      "Selected " ++ strategyTypeStr t ++ " based on intent " ++ intentTypeStr intent.type
    parameters := [] }

/-- `Pipeline.execute` (Pipeline.ts lines 327–354): a stub that always
succeeds after a simulated latency.  The catch branch is unreachable here
(nothing in the try block throws). -/
def execute (intent : ClassifiedIntent) (strategy : ExecutionStrategy) : ExecutionResult :=
  { success := true
    output := some ("Executed " ++ intentTypeStr intent.type ++ " with " ++
      strategyTypeStr strategy.type ++ " strategy")
    error := none
    metrics := { duration := 0, tokensUsed := some 150, retriesAttempted := 0 } }

/-- The clarification counter of `Pipeline.detectAntiPatterns` (lines
361–370): intent-classification events whose data has a truthy `input` (so the
empty string does NOT count) of length < 10. -/
def clarificationCount (history : List PipelineEvent) : ℕ :=
  (history.filter fun e =>
    decide (e.stage = .INTENT_CLASSIFICATION) &&
      match e.data with
      | .inputData s => !(s == "") && decide (s.length < 10)
      | _ => false).length

/-- `history.slice(-5)`: the last five events (all of them when there are
fewer than five). -/
def lastFive (history : List PipelineEvent) : List PipelineEvent :=
  history.drop (history.length - 5)

/-- `new Set(recentEvents.map(e => e.stage)).size`: the number of distinct
stages among a list of events. -/
def distinctStageCount (events : List PipelineEvent) : ℕ :=
  ((events.map (·.stage)).eraseDups).length

/-- The infinite-clarification finding built at Pipeline.ts lines 374–379. -/
def infiniteClarificationFinding (count : ℕ) : AntiPattern :=
  { type := .INFINITE_CLARIFICATION
    severity := 9/10
    evidence := [toString count ++ " clarification attempts detected"]
    recommendedPivot := "Switch to guided mode with examples" }

/-- The stuck-loop finding built at Pipeline.ts lines 386–391. -/
def stuckLoopFinding : AntiPattern :=
  { type := .STUCK_LOOP
    severity := 85/100
    evidence := ["Repetitive pattern detected in recent events"]
    recommendedPivot := "Reset context and try alternative approach" }

/-- `Pipeline.detectAntiPatterns` (Pipeline.ts lines 359–395): the
infinite-clarification check over the whole history, then the stuck-loop check
over the last five events (which requires at least five), first hit wins. -/
def detectAntiPatterns (cfg : PipelineConfig) (history : List PipelineEvent) :
    Option AntiPattern :=
  let c := clarificationCount history
  if cfg.maxClarificationAttempts < c then
    some (infiniteClarificationFinding c)
  else
    let recentEvents := lastFive history
    if distinctStageCount recentEvents < 2 ∧ 5 ≤ recentEvents.length then
      some stuckLoopFinding
    else
      none

/-- An event handler, `EventHandler` in Pipeline.ts.  Handlers receive the
emitted event and the live session context; state mutation becomes returning
an updated context. -/
def Handler : Type :=
  PipelineEvent → PipelineContext → PipelineContext

/-- The six default stage handlers registered by
`Pipeline.registerDefaultHandlers` (Pipeline.ts lines 181–243).  On event data
of an unexpected shape the classification / gating / strategy / execution
handlers throw in the source (`'No intent to gate'`, ...); those shapes are
unreachable through the pipeline's own emits (which always attach the matching
data), and the branches are modelled as no-ops. -/
def defaultHandler (cfg : PipelineConfig) : PipelineStage → Handler
  | .INTENT_CLASSIFICATION => fun e c =>
      match e.data with
      | .inputData input => { c with currentIntent := some (classifyIntent input) }
      | _ => c
  | .CONFIDENCE_GATING => fun e c =>
      match e.data with
      | .intentData (some intent) =>
          -- the handler mutates `intent.type` in place; the event's intent is
          -- the same object as `context.currentIntent` in every pipeline flow
          { c with currentIntent := some (gateIntent cfg intent) }
      | _ => c
  | .STRATEGY_SELECTION => fun e c =>
      match e.data with
      | .intentData (some intent) =>
          { c with selectedStrategy := some (selectStrategy intent) }
      | _ => c
  | .EXECUTION => fun e c =>
      match e.data with
      | .execData (some intent) (some strategy) =>
          { c with executionResult := some (execute intent strategy) }
      | _ => c
  | .ANTI_PATTERN_DETECTION => fun _ c =>
      match detectAntiPatterns cfg c.history with
      | some antiPattern => { c with antiPatternDetected := some antiPattern }
      | none => c
  | .FEEDBACK_COLLECTION => fun _ c => c

/-- A pipeline instance: its configuration plus the extra observers registered
through `on` (the event bus holds, per stage, the default handler followed by
the observers in registration order). -/
structure Pipeline where
  config : PipelineConfig
  observers : PipelineStage → List Handler

/-- The handler list `eventBus.get(stage)`: default handler first, then the
registered observers in registration order. -/
def busHandlers (p : Pipeline) (stage : PipelineStage) : List Handler :=
  defaultHandler p.config stage :: p.observers stage

/-- Sequential (awaited one-by-one) dispatch of a handler list. -/
def runHandlers : List Handler → PipelineEvent → PipelineContext → PipelineContext
  | [], _, c => c
  | h :: t, e, c => runHandlers t e (h e c)

/-- The context each handler of the list receives during sequential dispatch
(the observation function for `runHandlers`). -/
def handlerInputs : List Handler → PipelineEvent → PipelineContext → List PipelineContext
  | [], _, _ => []
  | h :: t, e, c => c :: handlerInputs t e (h e c)

/-- `Pipeline.emit` (Pipeline.ts lines 64–78): push the event onto the
session history, then run every handler for its stage in sequence. -/
def emit (p : Pipeline) (e : PipelineEvent) (c : PipelineContext) : PipelineContext :=
  runHandlers (busHandlers p e.stage) e { c with history := c.history ++ [e] }

/-- Stage-1 emit of `Pipeline.process`: intent classification. -/
def stepClassify (p : Pipeline) (input : String) (c : PipelineContext) : PipelineContext :=
  emit p { stage := .INTENT_CLASSIFICATION, data := .inputData input } c

/-- Stage-2 emit of `Pipeline.process`: confidence gating, with
`data: { intent: context.currentIntent }`. -/
def stepGate (p : Pipeline) (c : PipelineContext) : PipelineContext :=
  emit p { stage := .CONFIDENCE_GATING, data := .intentData c.currentIntent } c

/-- Stage-3 emit of `Pipeline.process`: anti-pattern detection. -/
def stepDetect (p : Pipeline) (c : PipelineContext) : PipelineContext :=
  emit p { stage := .ANTI_PATTERN_DETECTION, data := .historyData } c

/-- Stage-4 emit of `Pipeline.process`: strategy selection. -/
def stepStrategy (p : Pipeline) (c : PipelineContext) : PipelineContext :=
  emit p { stage := .STRATEGY_SELECTION, data := .intentData c.currentIntent } c

/-- Stage-5 emit of `Pipeline.process`: execution. -/
def stepExecute (p : Pipeline) (c : PipelineContext) : PipelineContext :=
  emit p { stage := .EXECUTION, data := .execData c.currentIntent c.selectedStrategy } c

/-- The context after the first two stages. -/
def afterGate (p : Pipeline) (input : String) (c : PipelineContext) : PipelineContext :=
  stepGate p (stepClassify p input c)

/-- The context right after the anti-pattern-detection stage finishes. -/
def afterDetect (p : Pipeline) (input : String) (c : PipelineContext) : PipelineContext :=
  stepDetect p (afterGate p input c)

/-- `Pipeline.process` (Pipeline.ts lines 83–146) acting on one session's
context (the per-session slice of the `contexts` map): classification, gating,
then — when detection is enabled — anti-pattern detection with an early return
if `context.antiPatternDetected` is set, then strategy selection and
execution. -/
def processCtx (p : Pipeline) (input : String) (ctx : PipelineContext) : PipelineContext :=
  let c2 := afterGate p input ctx
  if p.config.enableAntiPatternDetection then
    let c3 := stepDetect p c2
    if c3.antiPatternDetected.isSome then
      c3
    else
      stepExecute p (stepStrategy p c3)
  else
    stepExecute p (stepStrategy p c2)

/-- `Pipeline.submitFeedback` (Pipeline.ts lines 151–162) on a session's
context; the `Session not found` throw for an unknown session corresponds to
the caller holding no context. -/
def submitFeedbackCtx (p : Pipeline) (feedback : UserFeedback) (c : PipelineContext) :
    PipelineContext :=
  emit p { stage := .FEEDBACK_COLLECTION, data := .feedbackData feedback } c

/-- A pipeline with no observers registered beyond the default handlers. -/
def defaultPipeline (cfg : PipelineConfig) : Pipeline :=
  { config := cfg, observers := fun _ => [] }

/-- `process` of a pipeline on which no extra observers were registered. -/
def processD (cfg : PipelineConfig) : String → PipelineContext → PipelineContext :=
  processCtx (defaultPipeline cfg)

/-- The context `Pipeline.process` creates for a fresh session
(Pipeline.ts lines 85–93). -/
def freshContext (sessionId : String) (userId : Option String) : PipelineContext :=
  { sessionId := sessionId
    userId := userId
    history := []
    currentIntent := none
    selectedStrategy := none
    executionResult := none
    antiPatternDetected := none }

/-- `ContextFeatures` from `src/types.ts`: the bandit's context vector input. -/
structure ContextFeatures where
  intentType : IntentType
  taskComplexity : ℚ
  userExperience : ℚ
  timeOfDay : ℚ
  sessionLength : ℚ
  previousSuccessRate : ℚ
deriving DecidableEq, Repr

/-- One entry of the preference model's reward history. -/
structure RewardEntry where
  context : ContextFeatures
  strategy : StrategyType
  reward : ℚ
deriving DecidableEq, Repr

/-- The preference model's state, `PreferenceState` from `src/types.ts`.  The
`strategyWeights` JavaScript `Map` is modelled as an association list in
insertion order.  The exploration parameter `alpha` of the class is used only
inside the floating-point UCB scoring of `selectStrategy` (not modelled, see
`selectStrategyState`) and is omitted. -/
structure PreferenceModel where
  strategyWeights : List (StrategyType × List ℚ)
  explorationRate : ℚ
  totalIterations : ℕ
  rewardHistory : List RewardEntry
deriving DecidableEq, Repr

/-- `Object.values(StrategyType)` in declaration order, as iterated by the
constructor when initializing the weight map. -/
def allStrategies : List StrategyType :=
  [.AUTONOMOUS, .CONFIRMATION, .GUIDED, .DELEGATED, .LEARNING]

/-- The `PreferenceModel` constructor (PreferenceModel.ts lines 692–710).  The
source initializes each strategy's 6-dimensional weight vector with
`Math.random() * 0.1` draws; the draws are modelled as an explicit parameter
(the range and dimension constraints appear in `ReachableModel.init`). -/
def PreferenceModel.init (w0 : StrategyType → List ℚ) : PreferenceModel :=
  { strategyWeights := allStrategies.map fun s => (s, w0 s)
    explorationRate := 1
    totalIterations := 0
    rewardHistory := [] }

/-- `Map.prototype.get` on the association-list model of the weight map. -/
def mapGet (m : List (StrategyType × List ℚ)) (k : StrategyType) : Option (List ℚ) :=
  match m with
  | [] => none
  | (k1, v) :: t => if k1 = k then some v else mapGet t k

/-- `Map.prototype.set` on the association-list model: replace the value at an
existing key in place, otherwise append a new entry. -/
def mapSet (m : List (StrategyType × List ℚ)) (k : StrategyType) (v : List ℚ) :
    List (StrategyType × List ℚ) :=
  match m with
  | [] => [(k, v)]
  | (k1, v1) :: t => if k1 = k then (k1, v) :: t else (k1, v1) :: mapSet t k v

/-- `PreferenceModel.intentTypeToNumeric` (PreferenceModel.ts lines 800–808). -/
def intentTypeToNumeric : IntentType → ℚ
  | .VIBE_CHECK => 1/4
  | .MOVE_MAKE => 1/2
  | .CLARITY_CALL => 3/4
  | .RAPPORT_BUILD => 1

/-- `PreferenceModel.contextToVector` (PreferenceModel.ts lines 786–795). -/
def contextToVector (c : ContextFeatures) : List ℚ :=
  [intentTypeToNumeric c.intentType, c.taskComplexity, c.userExperience,
    c.timeOfDay / 24, c.sessionLength / 60, c.previousSuccessRate]

/-- `PreferenceModel.dotProduct` (PreferenceModel.ts lines 813–815).  The
source folds over the first vector's indices; both call sites pass vectors of
matching length (6, or an empty first vector), where this `zipWith` is the
same function. -/
def dotProduct (a b : List ℚ) : ℚ :=
  (List.zipWith (· * ·) a b).sum

/-- `PreferenceModel.feedbackToReward` (PreferenceModel.ts lines 833–858):
rating contributes up to 0.6, completion a flat 0.4, time and edit efficiency
up to 0.2 each, with the raw sum clamped into [0, 1]. -/
def feedbackToReward (feedback : UserFeedback) : ℚ :=
  let ratingPart :=
    match feedback.rating with
    | some r => r / 5 * (6/10)
    | none => 0
  let implicitPart :=
    match feedback.implicit with
    | none => 0
    | some im =>
        (if im.taskCompleted then (4 : ℚ)/10 else 0)
          + max 0 (1 - im.timeToCompletion / 300) * (2/10)
          + max 0 (1 - im.editsMade / 10) * (2/10)
  min 1 (max 0 (ratingPart + implicitPart))

/-- `PreferenceModel.updateFromFeedback` (PreferenceModel.ts lines 742–774):
append the reward to the history, then run one gradient step on the chosen
strategy's weight vector only.  `contextVector.getD i 0` stands for the
source's `contextVector[i]`, indexed within bounds at every reachable call
(the weight vector has the feature dimension 6, or is empty for an unknown
strategy, in which case the `mapIdx` is empty as well). -/
def updateFromFeedback (m : PreferenceModel) (context : ContextFeatures)
    (strategy : StrategyType) (feedback : UserFeedback) : PreferenceModel :=
  let reward := feedbackToReward feedback
  let contextVector := contextToVector context
  let currentWeights := (mapGet m.strategyWeights strategy).getD []
  let learningRate := (1 : ℚ)/10 / (1 + (m.totalIterations : ℚ) * (1/1000))
  let predicted := dotProduct currentWeights contextVector
  let error := reward - predicted
  let updatedWeights :=
    currentWeights.mapIdx fun i w => w + learningRate * error * contextVector.getD i 0
  { m with
      rewardHistory := m.rewardHistory ++ [⟨context, strategy, reward⟩]
      strategyWeights := mapSet m.strategyWeights strategy updatedWeights }

/-- The state effect of `PreferenceModel.selectStrategy` (PreferenceModel.ts
lines 732–734): decay the exploration rate (floored at 0.1) and increment the
iteration counter.  The returned strategy is the argmax of the UCB scores
`dot(weights, vector) + alpha * sqrt(2 * ln(total+1) / (count+1))`, a
floating-point `Math.sqrt`/`Math.log` computation that no claim concerns; only
the state mutation is embedded. -/
def selectStrategyState (m : PreferenceModel) : PreferenceModel :=
  { m with
      explorationRate := max (1/10) (m.explorationRate * (999/1000))
      totalIterations := m.totalIterations + 1 }

/-- The preference-model states reachable through the class API: constructed
with in-range random initial weights (each strategy gets 6 draws from
`[0, 0.1)`), then any sequence of `selectStrategy` and `updateFromFeedback`
calls. -/
inductive ReachableModel : PreferenceModel → Prop where
  | init (w0 : StrategyType → List ℚ)
      (hlen : ∀ s, (w0 s).length = 6)
      (hrange : ∀ s, ∀ q ∈ w0 s, 0 ≤ q ∧ q < 1/10) :
      ReachableModel (PreferenceModel.init w0)
  | select (m : PreferenceModel) :
      ReachableModel m → ReachableModel (selectStrategyState m)
  | update (m : PreferenceModel) (c : ContextFeatures) (s : StrategyType)
      (f : UserFeedback) :
      ReachableModel m → ReachableModel (updateFromFeedback m c s f)

/-- The JSON value domain: the possible results of `JSON.parse`, and the
level at which the model's persistence boundary is embedded (`JSON.parse` and
`JSON.stringify` between these values and strings are the identity
round-trip that the JavaScript runtime guarantees for parse-produced values).
Objects produced by `JSON.parse` have pairwise distinct keys. -/
inductive Json where
  | null
  | bool (b : Bool)
  | num (q : ℚ)
  | str (s : String)
  | arr (elems : List Json)
  | obj (fields : List (String × Json))

/-- Field lookup inside a parsed JSON object. -/
def jsLookupField : List (String × Json) → String → Option Json
  | [], _ => none
  | (k, v) :: t, key => if k = key then some v else jsLookupField t key

/-- Property access `data["key"]` on a parsed JSON value that is not `null`
(`undefined` is `none`). -/
def jsField : Json → String → Option Json
  | .obj fields, key => jsLookupField fields key
  | _, _ => none

/-- SameValueZero key equality as used by `Map`: primitive JSON values compare
by value; arrays and objects compare by reference, and distinct nodes of a
freshly parsed JSON tree are distinct references, so they never collide. -/
def jsKeyEq : Option Json → Option Json → Bool
  | none, none => true
  | some .null, some .null => true
  | some (.bool a), some (.bool b) => a == b
  | some (.num a), some (.num b) => decide (a = b)
  | some (.str a), some (.str b) => a == b
  | _, _ => false

/-- `Map.prototype.set` on JavaScript-value keys: replace in place on a
matching key, else append. -/
def jsMapInsert (m : List (Option Json × Option Json)) (k v : Option Json) :
    List (Option Json × Option Json) :=
  match m with
  | [] => [(k, v)]
  | (k1, v1) :: t => if jsKeyEq k1 k then (k1, v) :: t else (k1, v1) :: jsMapInsert t k v

/-- Coercion of one iterated item of the `new Map(...)` argument to a
`[key, value]` entry, per the `AddEntriesFromIterable` step of the `Map`
constructor: every iterated item must be an Object — an array yields its
elements at indices 0 and 1 (missing ones are `undefined`), a plain object
yields its properties `"0"` and `"1"` — while a primitive item (null, a
boolean, a number, or a string) makes the constructor throw a `TypeError`. -/
def jsEntry : Json → Except Unit (Option Json × Option Json)
  | .arr es => .ok (es.head?, (es.drop 1).head?)
  | .obj fields => .ok (jsLookupField fields "0", jsLookupField fields "1")
  | _ => .error ()

/-- Insert a list of `new Map` argument elements one by one, throwing at the
first element that is not entry-coercible. -/
def jsMapOfEntries : List Json → List (Option Json × Option Json) →
    Except Unit (List (Option Json × Option Json))
  | [], acc => .ok acc
  | e :: t, acc =>
      match jsEntry e with
      | .error u => .error u
      | .ok kv => jsMapOfEntries t (jsMapInsert acc kv.1 kv.2)

/-- `new Map(x)` for `x` a parsed JSON value or `undefined`: `undefined` and
`null` give the empty map and an array is iterated item by item; a string is
iterable, but every iterated character is a string primitive and not an
Object, so only the empty string (which yields no items) produces the empty
map and every non-empty string throws a `TypeError`; the remaining JSON
values (booleans, numbers, objects) are not iterable and throw. -/
def jsNewMap : Option Json → Except Unit (List (Option Json × Option Json))
  | none => .ok []
  | some .null => .ok []
  | some (.arr es) => jsMapOfEntries es []
  | some (.str s) => if s = "" then .ok [] else .error ()
  | some _ => .error ()

/-- The preference-model state as the JavaScript runtime holds it after an
`importModel`: raw parsed values, with `undefined` (`none`) representable in
every field. -/
structure RawPreferenceState where
  strategyWeights : List (Option Json × Option Json)
  explorationRate : Option Json
  totalIterations : Option Json
  rewardHistory : Option Json

/-- JSON encoding of a `ContextFeatures` record, as `JSON.stringify` sees it. -/
def encodeContext (c : ContextFeatures) : Json :=
  .obj [("intentType", .str (intentTypeStr c.intentType)),
    ("taskComplexity", .num c.taskComplexity),
    ("userExperience", .num c.userExperience),
    ("timeOfDay", .num c.timeOfDay),
    ("sessionLength", .num c.sessionLength),
    ("previousSuccessRate", .num c.previousSuccessRate)]

/-- JSON encoding of one reward-history entry. -/
def encodeRewardEntry (e : RewardEntry) : Json :=
  .obj [("context", encodeContext e.context),
    ("strategy", .str (strategyTypeStr e.strategy)),
    ("reward", .num e.reward)]

/-- The raw (JavaScript-value) view of a typed preference-model state. -/
def embedRaw (m : PreferenceModel) : RawPreferenceState :=
  { strategyWeights := m.strategyWeights.map fun p =>
      (some (Json.str (strategyTypeStr p.1)), some (Json.arr (p.2.map Json.num)))
    explorationRate := some (Json.num m.explorationRate)
    totalIterations := some (Json.num (m.totalIterations : ℚ))
    rewardHistory := some (Json.arr (m.rewardHistory.map encodeRewardEntry)) }

/-- `PreferenceModel.exportModel` (PreferenceModel.ts lines 885–892): the JSON
value serialized by `JSON.stringify` — the weight-map entries via
`Array.from(entries)`, the exploration rate, the iteration counter, and
`rewardHistory.slice(-100)` (at most the 100 most recent entries). -/
def exportModel (m : PreferenceModel) : Json :=
  .obj [("weights", .arr (m.strategyWeights.map fun p =>
      .arr [.str (strategyTypeStr p.1), .arr (p.2.map Json.num)])),
    ("explorationRate", .num m.explorationRate),
    ("totalIterations", .num (m.totalIterations : ℚ)),
    ("rewardHistory", .arr ((m.rewardHistory.drop
      (m.rewardHistory.length - 100)).map encodeRewardEntry))]

/-- `PreferenceModel.importModel` (PreferenceModel.ts lines 897–907).  The
whole body sits in a `try`; the Boolean result records whether the `catch`
reported an error.  `none` input models a string `JSON.parse` rejects; a
`null` payload throws on the `data.weights` property access; a `weights` value
that `new Map` cannot consume throws before any assignment.  Otherwise the
four state fields are overwritten in order with the raw parsed values —
missing fields become `undefined` — and, because the `new Map` call is the
only assignment that can throw and it is the first, the commit is
all-or-nothing. -/
def importModel (input : Option Json) (s : RawPreferenceState) :
    RawPreferenceState × Bool :=
  match input with
  | none => (s, true)
  | some .null => (s, true)
  | some data =>
      match jsNewMap (jsField data "weights") with
      | .error _ => (s, true)
      | .ok entries =>
          ({ strategyWeights := entries
             explorationRate := jsField data "explorationRate"
             totalIterations := jsField data "totalIterations"
             rewardHistory := jsField data "rewardHistory" }, false)

/-- The `rewardHistory.length` a raw state exposes, when the field holds an
array. -/
def rawRewardHistoryLength (r : RawPreferenceState) : Option ℕ :=
  match r.rewardHistory with
  | some (.arr l) => some l.length
  | _ => none

/-- The `totalIterations` number a raw state exposes, when the field holds a
number. -/
def rawTotalIterations (r : RawPreferenceState) : Option ℚ :=
  match r.totalIterations with
  | some (.num q) => some q
  | _ => none

/-- A handler that never rewrites the session history (default handlers do
not; observers are expected not to, per the observability contract). -/
def PreservesHistory (h : Handler) : Prop :=
  ∀ (e : PipelineEvent) (c : PipelineContext), (h e c).history = c.history

/-- The clarification counter exactly as claim C2 words it — classification
events whose input has length < 10, with no non-emptiness requirement.
Modelled from the claim's wording, for comparison with the source's
`clarificationCount` (which skips falsy, i.e. empty, inputs). -/
def specClarificationCount (history : List PipelineEvent) : ℕ :=
  (history.filter fun e =>
    decide (e.stage = .INTENT_CLASSIFICATION) &&
      match e.data with
      | .inputData s => decide (s.length < 10)
      | _ => false).length

/-- The session context after four `process` calls with empty input on a
fresh session under the default configuration. -/
def emptyInputRun : PipelineContext :=
  (fun c => processD DEFAULT_CONFIG "" c)^[4] (freshContext "s" none)

/-- A history of three execution events (same stage throughout). -/
def threeExecutionEvents : List PipelineEvent :=
  List.replicate 3 { stage := .EXECUTION, data := .execData none none }

/-- A history of five execution events (same stage throughout). -/
def fiveExecutionEvents : List PipelineEvent :=
  List.replicate 5 { stage := .EXECUTION, data := .execData none none }

/-- A history of four short-input classification events. -/
def fourShortInputs : List PipelineEvent :=
  List.replicate 4 { stage := .INTENT_CLASSIFICATION, data := .inputData "what?" }

/-- All-zero initial weight vectors (an admissible draw of the constructor's
`Math.random() * 0.1` initialization). -/
def zeroWeights : StrategyType → List ℚ := fun _ => List.replicate 6 0

/-- A sample bandit context with all numeric features 0. -/
def sampleContext : ContextFeatures :=
  { intentType := .VIBE_CHECK
    taskComplexity := 0
    userExperience := 0
    timeOfDay := 0
    sessionLength := 0
    previousSuccessRate := 0 }

/-- Feedback carrying a zero rating and no implicit signals (reward 0). -/
def zeroFeedback : UserFeedback := { rating := some 0, implicit := none }

/-- One zero-reward feedback update. -/
def updZero (m : PreferenceModel) : PreferenceModel :=
  updateFromFeedback m sampleContext .AUTONOMOUS zeroFeedback

/-- The model after `n` zero-reward feedback updates on a zero-initialized
fresh model. -/
def modelAfter (n : ℕ) : PreferenceModel :=
  updZero^[n] (PreferenceModel.init zeroWeights)

/-- The raw view of a zero-initialized fresh model. -/
def freshRaw : RawPreferenceState := embedRaw (PreferenceModel.init zeroWeights)

-- ======================================================================
-- Helper lemmas
-- ======================================================================

theorem defaultHandler_preserves (cfg : PipelineConfig) (s : PipelineStage) :
    PreservesHistory (defaultHandler cfg s) := by
  intro e c
  obtain ⟨st, d⟩ := e
  cases s <;> cases d <;> simp only [defaultHandler] <;> (try split) <;> rfl

theorem runHandlers_history (hs : List Handler) (e : PipelineEvent) (c : PipelineContext)
    (hp : ∀ h ∈ hs, PreservesHistory h) :
    (runHandlers hs e c).history = c.history := by
  induction hs generalizing c with
  | nil => rfl
  | cons h t ih =>
      simp only [runHandlers]
      rw [ih _ fun g hg => hp g (List.mem_cons_of_mem h hg), hp h (List.mem_cons_self h t)]

theorem handlerInputs_history (hs : List Handler) (e : PipelineEvent) (c : PipelineContext)
    (hp : ∀ h ∈ hs, PreservesHistory h) :
    ∀ c1 ∈ handlerInputs hs e c, c1.history = c.history := by
  induction hs generalizing c with
  | nil => intro c1 hc1; simp [handlerInputs] at hc1
  | cons h t ih =>
      intro c1 hc1
      simp only [handlerInputs, List.mem_cons] at hc1
      rcases hc1 with rfl | hc1
      · rfl
      · rw [ih _ (fun g hg => hp g (List.mem_cons_of_mem h hg)) c1 hc1,
          hp h (List.mem_cons_self h t)]

theorem stepClassify_eq (cfg : PipelineConfig) (input : String) (c : PipelineContext) :
    stepClassify (defaultPipeline cfg) input c
      = { c with
            history := c.history ++ [{ stage := .INTENT_CLASSIFICATION, data := .inputData input }]
            currentIntent := some (classifyIntent input) } := rfl

theorem stepGate_history (cfg : PipelineConfig) (c : PipelineContext) :
    (stepGate (defaultPipeline cfg) c).history
      = c.history ++ [{ stage := .CONFIDENCE_GATING, data := .intentData c.currentIntent }] := by
  cases h : c.currentIntent <;>
    simp [stepGate, emit, busHandlers, runHandlers, defaultPipeline, defaultHandler, h]

theorem stepGate_frame (cfg : PipelineConfig) (c : PipelineContext) :
    (stepGate (defaultPipeline cfg) c).selectedStrategy = c.selectedStrategy
    ∧ (stepGate (defaultPipeline cfg) c).executionResult = c.executionResult
    ∧ (stepGate (defaultPipeline cfg) c).antiPatternDetected = c.antiPatternDetected := by
  cases h : c.currentIntent <;>
    simp [stepGate, emit, busHandlers, runHandlers, defaultPipeline, defaultHandler, h]

theorem stepDetect_history (cfg : PipelineConfig) (c : PipelineContext) :
    (stepDetect (defaultPipeline cfg) c).history
      = c.history ++ [{ stage := .ANTI_PATTERN_DETECTION, data := .historyData }] := by
  cases h : detectAntiPatterns cfg
      (c.history ++ [{ stage := .ANTI_PATTERN_DETECTION, data := .historyData }]) <;>
    simp [stepDetect, emit, busHandlers, runHandlers, defaultPipeline, defaultHandler, h]

theorem stepDetect_frame (cfg : PipelineConfig) (c : PipelineContext) :
    (stepDetect (defaultPipeline cfg) c).selectedStrategy = c.selectedStrategy
    ∧ (stepDetect (defaultPipeline cfg) c).executionResult = c.executionResult
    ∧ (stepDetect (defaultPipeline cfg) c).currentIntent = c.currentIntent := by
  cases h : detectAntiPatterns cfg
      (c.history ++ [{ stage := .ANTI_PATTERN_DETECTION, data := .historyData }]) <;>
    simp [stepDetect, emit, busHandlers, runHandlers, defaultPipeline, defaultHandler, h]

theorem stepDetect_keeps_detected (cfg : PipelineConfig) (c : PipelineContext)
    (hc : c.antiPatternDetected.isSome = true) :
    (stepDetect (defaultPipeline cfg) c).antiPatternDetected.isSome = true := by
  cases h : detectAntiPatterns cfg
      (c.history ++ [{ stage := .ANTI_PATTERN_DETECTION, data := .historyData }]) <;>
    simp [stepDetect, emit, busHandlers, runHandlers, defaultPipeline, defaultHandler, h, hc]

theorem stepStrategy_history (cfg : PipelineConfig) (c : PipelineContext) :
    (stepStrategy (defaultPipeline cfg) c).history
      = c.history ++ [{ stage := .STRATEGY_SELECTION, data := .intentData c.currentIntent }] := by
  cases h : c.currentIntent <;>
    simp [stepStrategy, emit, busHandlers, runHandlers, defaultPipeline, defaultHandler, h]

theorem stepExecute_history (cfg : PipelineConfig) (c : PipelineContext) :
    (stepExecute (defaultPipeline cfg) c).history
      = c.history
          ++ [{ stage := .EXECUTION, data := .execData c.currentIntent c.selectedStrategy }] := by
  cases hi : c.currentIntent <;> cases hs : c.selectedStrategy <;>
    simp [stepExecute, emit, busHandlers, runHandlers, defaultPipeline, defaultHandler, hi, hs]

theorem afterGate_stages (cfg : PipelineConfig) (input : String) (c : PipelineContext) :
    (afterGate (defaultPipeline cfg) input c).history.map (·.stage)
      = c.history.map (·.stage) ++ [.INTENT_CLASSIFICATION, .CONFIDENCE_GATING] := by
  simp [afterGate, stepGate_history, stepClassify_eq]

theorem afterGate_frame (cfg : PipelineConfig) (input : String) (c : PipelineContext) :
    (afterGate (defaultPipeline cfg) input c).selectedStrategy = c.selectedStrategy
    ∧ (afterGate (defaultPipeline cfg) input c).executionResult = c.executionResult
    ∧ (afterGate (defaultPipeline cfg) input c).antiPatternDetected = c.antiPatternDetected := by
  unfold afterGate
  refine ⟨?_, ?_, ?_⟩ <;>
    rw [stepClassify_eq] at * <;>
    simp [stepGate_frame, stepClassify_eq]

theorem afterDetect_stages (cfg : PipelineConfig) (input : String) (c : PipelineContext) :
    (afterDetect (defaultPipeline cfg) input c).history.map (·.stage)
      = c.history.map (·.stage)
          ++ [.INTENT_CLASSIFICATION, .CONFIDENCE_GATING, .ANTI_PATTERN_DETECTION] := by
  simp [afterDetect, stepDetect_history, afterGate_stages]

theorem afterDetect_frame (cfg : PipelineConfig) (input : String) (c : PipelineContext) :
    (afterDetect (defaultPipeline cfg) input c).selectedStrategy = c.selectedStrategy
    ∧ (afterDetect (defaultPipeline cfg) input c).executionResult = c.executionResult := by
  unfold afterDetect
  constructor
  · rw [(stepDetect_frame cfg _).1, (afterGate_frame cfg input c).1]
  · rw [(stepDetect_frame cfg _).2.1, (afterGate_frame cfg input c).2.1]

theorem processD_detected (cfg : PipelineConfig) (input : String) (ctx : PipelineContext)
    (he : cfg.enableAntiPatternDetection = true)
    (hd : (afterDetect (defaultPipeline cfg) input ctx).antiPatternDetected.isSome = true) :
    processD cfg input ctx = afterDetect (defaultPipeline cfg) input ctx := by
  unfold processD processCtx afterDetect at *
  simp only [defaultPipeline] at *
  rw [if_pos he, if_pos hd]

theorem processD_not_detected (cfg : PipelineConfig) (input : String) (ctx : PipelineContext)
    (he : cfg.enableAntiPatternDetection = true)
    (hd : (afterDetect (defaultPipeline cfg) input ctx).antiPatternDetected.isSome = false) :
    processD cfg input ctx
      = stepExecute (defaultPipeline cfg)
          (stepStrategy (defaultPipeline cfg) (afterDetect (defaultPipeline cfg) input ctx)) := by
  unfold processD processCtx afterDetect at *
  simp only [defaultPipeline] at *
  rw [if_pos he, if_neg (by rw [hd]; exact Bool.false_ne_true)]

theorem processD_disabled (cfg : PipelineConfig) (input : String) (ctx : PipelineContext)
    (he : cfg.enableAntiPatternDetection = false) :
    processD cfg input ctx
      = stepExecute (defaultPipeline cfg)
          (stepStrategy (defaultPipeline cfg) (afterGate (defaultPipeline cfg) input ctx)) := by
  unfold processD processCtx afterGate at *
  simp only [defaultPipeline] at *
  rw [if_neg (by rw [he]; exact Bool.false_ne_true)]

-- ======================================================================
-- Claim theorems
-- ======================================================================

/-- C1: every `Pipeline.process` call runs the stages in the fixed order
intent classification, confidence gating, anti-pattern detection (only when
`enableAntiPatternDetection` is true), strategy selection, execution; and
whenever `context.antiPatternDetected` is set when the detection stage
finishes, `process` returns the context immediately — no strategy-selection or
execution event is appended and neither `selectedStrategy` nor
`executionResult` is written during that turn. -/
theorem process_stage_order_and_detection_halt (cfg : PipelineConfig) (input : String)
    (ctx : PipelineContext) :
    (cfg.enableAntiPatternDetection = true →
      (afterDetect (defaultPipeline cfg) input ctx).antiPatternDetected.isSome = true →
      processD cfg input ctx = afterDetect (defaultPipeline cfg) input ctx
      ∧ (processD cfg input ctx).history.map (·.stage)
          = ctx.history.map (·.stage)
            ++ [.INTENT_CLASSIFICATION, .CONFIDENCE_GATING, .ANTI_PATTERN_DETECTION]
      ∧ (processD cfg input ctx).selectedStrategy = ctx.selectedStrategy
      ∧ (processD cfg input ctx).executionResult = ctx.executionResult)
    ∧ (cfg.enableAntiPatternDetection = true →
      (afterDetect (defaultPipeline cfg) input ctx).antiPatternDetected.isSome = false →
      (processD cfg input ctx).history.map (·.stage)
        = ctx.history.map (·.stage)
          ++ [.INTENT_CLASSIFICATION, .CONFIDENCE_GATING, .ANTI_PATTERN_DETECTION,
            .STRATEGY_SELECTION, .EXECUTION])
    ∧ (cfg.enableAntiPatternDetection = false →
      (processD cfg input ctx).history.map (·.stage)
        = ctx.history.map (·.stage)
          ++ [.INTENT_CLASSIFICATION, .CONFIDENCE_GATING, .STRATEGY_SELECTION, .EXECUTION]) := by
  refine ⟨fun he hd => ?_, fun he hd => ?_, fun he => ?_⟩
  · rw [processD_detected cfg input ctx he hd]
    exact ⟨rfl, afterDetect_stages cfg input ctx,
      (afterDetect_frame cfg input ctx).1, (afterDetect_frame cfg input ctx).2⟩
  · rw [processD_not_detected cfg input ctx he hd, stepExecute_history, stepStrategy_history]
    simp [List.map_append, afterDetect_stages cfg input ctx]
  · rw [processD_disabled cfg input ctx he, stepExecute_history, stepStrategy_history]
    simp [List.map_append, afterGate_stages cfg input ctx]

/-- Witness for C1 at a concrete input: a context whose anti-pattern flag is
already set takes the early-return branch, appending only the first three
stage events and leaving `selectedStrategy` and `executionResult` untouched. -/
theorem process_stage_order_and_detection_halt_witness :
    (processD DEFAULT_CONFIG "hello there ok"
        { freshContext "s" none with antiPatternDetected := some stuckLoopFinding }).history.map
        (·.stage)
      = [.INTENT_CLASSIFICATION, .CONFIDENCE_GATING, .ANTI_PATTERN_DETECTION]
    ∧ (processD DEFAULT_CONFIG "hello there ok"
        { freshContext "s" none with antiPatternDetected := some stuckLoopFinding }).selectedStrategy
      = none := by
  have h := process_stage_order_and_detection_halt DEFAULT_CONFIG "hello there ok"
    { freshContext "s" none with antiPatternDetected := some stuckLoopFinding }
  obtain ⟨-, h2, h3, -⟩ := h.1 (by decide) (by decide)
  exact ⟨by simpa using h2, by simpa using h3⟩

/-- C10: once `antiPatternDetected` is set on a session's context, every
subsequent `process` call for that session with detection enabled returns
early right after the detection stage — even when the detector itself reports
nothing for the updated history — because the detection handler only ever
writes the field and no pipeline operation clears it; hence no
strategy-selection or execution stage runs and both `selectedStrategy` and
`executionResult` keep their old values. -/
theorem anti_pattern_sticky_early_return (cfg : PipelineConfig) (input : String)
    (ctx : PipelineContext)
    (he : cfg.enableAntiPatternDetection = true)
    (hset : ctx.antiPatternDetected.isSome = true) :
    (processD cfg input ctx).antiPatternDetected.isSome = true
    ∧ processD cfg input ctx = afterDetect (defaultPipeline cfg) input ctx
    ∧ (processD cfg input ctx).history.map (·.stage)
        = ctx.history.map (·.stage)
          ++ [.INTENT_CLASSIFICATION, .CONFIDENCE_GATING, .ANTI_PATTERN_DETECTION]
    ∧ (processD cfg input ctx).selectedStrategy = ctx.selectedStrategy
    ∧ (processD cfg input ctx).executionResult = ctx.executionResult := by
  have hd : (afterDetect (defaultPipeline cfg) input ctx).antiPatternDetected.isSome = true := by
    unfold afterDetect
    exact stepDetect_keeps_detected cfg _ (by rw [(afterGate_frame cfg input ctx).2.2]; exact hset)
  have h := processD_detected cfg input ctx he hd
  rw [h]
  exact ⟨hd, rfl, afterDetect_stages cfg input ctx,
    (afterDetect_frame cfg input ctx).1, (afterDetect_frame cfg input ctx).2⟩

/-- Witness for C10 at a concrete input: with the finding already set, the
turn ends at the detection stage even though the detector reports nothing for
this history. -/
theorem anti_pattern_sticky_early_return_witness :
    DEFAULT_CONFIG.enableAntiPatternDetection = true
    ∧ ((freshContext "s" none : PipelineContext).antiPatternDetected.isSome = false)
    ∧ (processD DEFAULT_CONFIG "hello there ok"
        { freshContext "s" none with
            antiPatternDetected := some stuckLoopFinding }).antiPatternDetected.isSome = true
    ∧ (processD DEFAULT_CONFIG "hello there ok"
        { freshContext "s" none with
            antiPatternDetected := some stuckLoopFinding }).executionResult = none := by
  refine ⟨by decide, by decide, ?_, ?_⟩
  · exact (anti_pattern_sticky_early_return DEFAULT_CONFIG "hello there ok"
      { freshContext "s" none with antiPatternDetected := some stuckLoopFinding }
      (by decide) (by decide)).1
  · exact (anti_pattern_sticky_early_return DEFAULT_CONFIG "hello there ok"
      { freshContext "s" none with antiPatternDetected := some stuckLoopFinding }
      (by decide) (by decide)).2.2.2.2

/-- C3: for every classified intent, the default confidence-gating stage
forces the type to `CLARITY_CALL` exactly when `overall` is strictly below the
threshold, leaves the type unchanged at or above it, and never touches the
four confidence sub-scores or the overall value; the default gating handler
applies exactly this function to the context's current intent. -/
theorem confidence_gating_forces_clarification (cfg : PipelineConfig)
    (intent : ClassifiedIntent) :
    (gateIntent cfg intent).confidence = intent.confidence
    ∧ (intent.confidence.overall < cfg.confidenceThreshold →
        (gateIntent cfg intent).type = .CLARITY_CALL)
    ∧ (cfg.confidenceThreshold ≤ intent.confidence.overall →
        (gateIntent cfg intent).type = intent.type)
    ∧ (∀ c : PipelineContext,
        defaultHandler cfg .CONFIDENCE_GATING
            { stage := .CONFIDENCE_GATING, data := .intentData (some intent) } c
          = { c with currentIntent := some (gateIntent cfg intent) }) := by
  refine ⟨?_, fun h => ?_, fun h => ?_, fun c => rfl⟩
  · unfold gateIntent; split <;> rfl
  · unfold gateIntent; rw [if_pos h]
  · unfold gateIntent; rw [if_neg (not_lt.mpr h)]

/-- Witness for C3 at a concrete input: `"hmm?"` classifies below the default
threshold and the gate downgrades it to `CLARITY_CALL` with the confidence
record intact. -/
theorem confidence_gating_forces_clarification_witness :
    (classifyIntent "hmm?").confidence.overall < DEFAULT_CONFIG.confidenceThreshold
    ∧ (gateIntent DEFAULT_CONFIG (classifyIntent "hmm?")).type = .CLARITY_CALL
    ∧ (gateIntent DEFAULT_CONFIG (classifyIntent "hmm?")).confidence
        = (classifyIntent "hmm?").confidence :=
  ⟨by decide,
    (confidence_gating_forces_clarification DEFAULT_CONFIG (classifyIntent "hmm?")).2.1
      (by decide),
    (confidence_gating_forces_clarification DEFAULT_CONFIG (classifyIntent "hmm?")).1⟩

/-- C4: the default strategy selection is a pure function of intent type and
overall confidence — `VIBE_CHECK` and `RAPPORT_BUILD` map to `AUTONOMOUS`,
`CLARITY_CALL` to `GUIDED`, and `MOVE_MAKE` to `AUTONOMOUS` exactly when
`overall` > 0.9 and to `CONFIRMATION` otherwise; processing
`"Create a new service"` under the default threshold 0.7 classifies as
`MOVE_MAKE` with `overall` = (0.85+0.9+0.75+0.8)/4 = 0.825 and selects
`CONFIRMATION` (confirm-first). -/
theorem strategy_selection_mapping_and_scenario :
    (∀ intent : ClassifiedIntent,
      (intent.type = .VIBE_CHECK → (selectStrategy intent).type = .AUTONOMOUS)
      ∧ (intent.type = .CLARITY_CALL → (selectStrategy intent).type = .GUIDED)
      ∧ (intent.type = .RAPPORT_BUILD → (selectStrategy intent).type = .AUTONOMOUS)
      ∧ (intent.type = .MOVE_MAKE →
          ((9 : ℚ)/10 < intent.confidence.overall →
            (selectStrategy intent).type = .AUTONOMOUS)
          ∧ (intent.confidence.overall ≤ 9/10 →
            (selectStrategy intent).type = .CONFIRMATION)))
    ∧ (processD DEFAULT_CONFIG "Create a new service" (freshContext "s" none)).currentIntent.map
        (·.type) = some .MOVE_MAKE
    ∧ (processD DEFAULT_CONFIG "Create a new service" (freshContext "s" none)).currentIntent.map
        (·.confidence.overall) = some ((85/100 + 9/10 + 3/4 + 4/5) / 4)
    ∧ ((85 : ℚ)/100 + 9/10 + 3/4 + 4/5) / 4 = 825/1000
    ∧ (processD DEFAULT_CONFIG "Create a new service" (freshContext "s" none)).selectedStrategy.map
        (·.type) = some .CONFIRMATION := by
  refine ⟨fun intent => ⟨fun h => ?_, fun h => ?_, fun h => ?_, fun h => ⟨fun hc => ?_, fun hc => ?_⟩⟩,
    by decide, by decide, by decide, by decide⟩
  · simp [selectStrategy, h]
  · simp [selectStrategy, h]
  · simp [selectStrategy, h]
  · simp [selectStrategy, h, hc]
  · simp [selectStrategy, h, not_lt.mpr hc]

/-- Witness for C4 at a concrete input: the intent classified from
`"Create a new service"` has type `MOVE_MAKE` and overall 0.825 ≤ 0.9, so the
selection comes out `CONFIRMATION`. -/
theorem strategy_selection_mapping_and_scenario_witness :
    (classifyIntent "Create a new service").type = .MOVE_MAKE
    ∧ (selectStrategy (classifyIntent "Create a new service")).type = .CONFIRMATION :=
  ⟨by decide,
    ((strategy_selection_mapping_and_scenario.1 (classifyIntent "Create a new service")).2.2.2
      (by decide)).2 (by decide)⟩

/-- Counterexample to C9 as stated: on a history of three events of one
single stage (so the last five events span one distinct stage and the
infinite-clarification check does not fire) the claim demands a stuck-loop
finding, but the detector returns nothing — the source additionally requires
at least five events (`recentEvents.length >= 5`). -/
theorem stuck_loop_short_history_counterexample :
    distinctStageCount (lastFive threeExecutionEvents) < 2
    ∧ clarificationCount threeExecutionEvents ≤ DEFAULT_CONFIG.maxClarificationAttempts
    ∧ detectAntiPatterns DEFAULT_CONFIG threeExecutionEvents = none := by decide

/-- C9 as amended: when the infinite-clarification check does not fire, the
detector reports the stuck-loop finding (severity 0.85) exactly on histories
of at least five events whose last five span fewer than two distinct stages;
infinite clarification is checked first, the first hit wins, and at most one
finding (one of the two) is ever returned. -/
theorem stuck_loop_detection_amended (cfg : PipelineConfig) (history : List PipelineEvent) :
    (cfg.maxClarificationAttempts < clarificationCount history →
      detectAntiPatterns cfg history
        = some (infiniteClarificationFinding (clarificationCount history)))
    ∧ (clarificationCount history ≤ cfg.maxClarificationAttempts →
        5 ≤ history.length → distinctStageCount (lastFive history) < 2 →
        detectAntiPatterns cfg history = some stuckLoopFinding)
    ∧ (∀ f, detectAntiPatterns cfg history = some f →
        f = infiniteClarificationFinding (clarificationCount history) ∨ f = stuckLoopFinding)
    ∧ stuckLoopFinding.type = .STUCK_LOOP ∧ stuckLoopFinding.severity = 85/100 := by
  refine ⟨fun h => ?_, fun h1 h2 h3 => ?_, fun f hf => ?_, rfl, rfl⟩
  · unfold detectAntiPatterns
    rw [if_pos h]
  · unfold detectAntiPatterns
    rw [if_neg (not_lt.mpr h1), if_pos ⟨h3, by simp [lastFive]; omega⟩]
  · simp only [detectAntiPatterns] at hf
    split at hf
    · exact Or.inl (Option.some.inj hf).symm
    · split at hf
      · exact Or.inr (Option.some.inj hf).symm
      · exact absurd hf (by simp)

/-- Witness for the amended C9 at a concrete input: five same-stage events
trigger the stuck-loop finding. -/
theorem stuck_loop_detection_amended_witness :
    clarificationCount fiveExecutionEvents ≤ DEFAULT_CONFIG.maxClarificationAttempts
    ∧ 5 ≤ fiveExecutionEvents.length
    ∧ distinctStageCount (lastFive fiveExecutionEvents) < 2
    ∧ detectAntiPatterns DEFAULT_CONFIG fiveExecutionEvents = some stuckLoopFinding :=
  ⟨by decide, by decide, by decide,
    (stuck_loop_detection_amended DEFAULT_CONFIG fiveExecutionEvents).2.1
      (by decide) (by decide) (by decide)⟩

/-- Counterexample to C2 as stated: after four `process` calls with the empty
input `""` on one session, the history holds four classification events whose
input length 0 is below 10, so the claim's count (4) exceeds
`maxClarificationAttempts` (3) and the claim demands an infinite-clarification
finding — but the source's counter skips falsy (empty) inputs
(`intentData?.input && ...`), counts 0, and neither the detector nor the
session context reports anything. -/
theorem clarification_count_empty_input_counterexample :
    specClarificationCount emptyInputRun.history = 4
    ∧ DEFAULT_CONFIG.maxClarificationAttempts = 3
    ∧ clarificationCount emptyInputRun.history = 0
    ∧ detectAntiPatterns DEFAULT_CONFIG emptyInputRun.history = none
    ∧ emptyInputRun.antiPatternDetected = none := by decide

/-- C2 as amended: the detector counts the classification events whose input
is non-empty and of length < 10, and whenever that count exceeds
`maxClarificationAttempts` it reports the infinite-clarification finding with
severity 0.9; five consecutive `process` calls with `"what?"` on one session
under `maxClarificationAttempts = 3` with detection enabled set the session
context's finding, of type infinite-clarification, by the 4th turn (so it is
set on the 4th and 5th turns). -/
theorem clarification_detection_amended :
    (∀ (cfg : PipelineConfig) (history : List PipelineEvent),
      cfg.maxClarificationAttempts < clarificationCount history →
      detectAntiPatterns cfg history
        = some (infiniteClarificationFinding (clarificationCount history)))
    ∧ (∀ n : ℕ, (infiniteClarificationFinding n).type = .INFINITE_CLARIFICATION
        ∧ (infiniteClarificationFinding n).severity = 9/10)
    ∧ ((fun c => processD DEFAULT_CONFIG "what?" c)^[4]
        (freshContext "s" none)).antiPatternDetected.map (·.type)
      = some .INFINITE_CLARIFICATION
    ∧ ((fun c => processD DEFAULT_CONFIG "what?" c)^[5]
        (freshContext "s" none)).antiPatternDetected.map (·.type)
      = some .INFINITE_CLARIFICATION := by
  refine ⟨fun cfg history h => ?_, fun n => ⟨rfl, rfl⟩, by decide, by decide⟩
  unfold detectAntiPatterns
  rw [if_pos h]

/-- Witness for the amended C2 at a concrete input: four `"what?"`
classification events make the counter 4 > 3 and the detector fires the
infinite-clarification finding. -/
theorem clarification_detection_amended_witness :
    DEFAULT_CONFIG.maxClarificationAttempts < clarificationCount fourShortInputs
    ∧ detectAntiPatterns DEFAULT_CONFIG fourShortInputs
        = some (infiniteClarificationFinding (clarificationCount fourShortInputs)) :=
  ⟨by decide, clarification_detection_amended.1 DEFAULT_CONFIG fourShortInputs (by decide)⟩

/-- Every `process` turn only appends to the session history (on the default
pipeline the appended block is the turn's three, four, or five stage
events). -/
theorem processD_history_extends (cfg : PipelineConfig) (input : String)
    (ctx : PipelineContext) :
    ∃ es, (processD cfg input ctx).history = ctx.history ++ es := by
  have hbase : (afterGate (defaultPipeline cfg) input ctx).history
      = ctx.history
        ++ [{ stage := .INTENT_CLASSIFICATION, data := .inputData input }]
        ++ [{ stage := .CONFIDENCE_GATING,
              data := .intentData (stepClassify (defaultPipeline cfg) input ctx).currentIntent }] := by
    unfold afterGate
    rw [stepGate_history, stepClassify_eq]
  by_cases he : cfg.enableAntiPatternDetection
  · by_cases hd : (afterDetect (defaultPipeline cfg) input ctx).antiPatternDetected.isSome
    · rw [processD_detected cfg input ctx he hd]
      unfold afterDetect
      rw [stepDetect_history, hbase]
      simp only [List.append_assoc]
      exact ⟨_, rfl⟩
    · rw [processD_not_detected cfg input ctx he (by simpa using hd)]
      rw [stepExecute_history, stepStrategy_history]
      unfold afterDetect
      rw [stepDetect_history, hbase]
      simp only [List.append_assoc]
      exact ⟨_, rfl⟩
  · rw [processD_disabled cfg input ctx (by simpa using he)]
    rw [stepExecute_history, stepStrategy_history, hbase]
    simp only [List.append_assoc]
    exact ⟨_, rfl⟩

/-- C6: an emitted event is appended to the session history before any
handler for its stage runs — provided the earlier handlers in the bus keep the
history intact (the default handlers do, and observers are contracted not to
rewrite state outside their stage), every handler invocation during the
dispatch receives the just-appended event as the last history element together
with all prior events, and the dispatch itself leaves that appended history in
place; `process` and `submitFeedback` only ever append to the history
(`clearContext` alone discards a session's state, wholesale). -/
theorem emit_append_before_observers_and_append_only :
    (∀ (p : Pipeline) (e : PipelineEvent) (c : PipelineContext),
      (∀ h ∈ busHandlers p e.stage, PreservesHistory h) →
      (∀ c1 ∈ handlerInputs (busHandlers p e.stage) e
          { c with history := c.history ++ [e] },
        c1.history = c.history ++ [e] ∧ c1.history.getLast? = some e)
      ∧ (emit p e c).history = c.history ++ [e])
    ∧ (∀ (cfg : PipelineConfig) (s : PipelineStage), PreservesHistory (defaultHandler cfg s))
    ∧ (∀ (cfg : PipelineConfig) (input : String) (ctx : PipelineContext),
      ∃ es, (processD cfg input ctx).history = ctx.history ++ es)
    ∧ (∀ (cfg : PipelineConfig) (feedback : UserFeedback) (ctx : PipelineContext),
      (submitFeedbackCtx (defaultPipeline cfg) feedback ctx).history
        = ctx.history ++ [{ stage := .FEEDBACK_COLLECTION, data := .feedbackData feedback }]) := by
  refine ⟨fun p e c hp => ⟨fun c1 hc1 => ?_, ?_⟩, defaultHandler_preserves,
    processD_history_extends, fun cfg feedback ctx => ?_⟩
  · have h := handlerInputs_history (busHandlers p e.stage) e
      { c with history := c.history ++ [e] } hp c1 hc1
    simp only at h
    exact ⟨h, by rw [h]; simp⟩
  · exact runHandlers_history (busHandlers p e.stage) e _ hp
  · exact runHandlers_history _ _ _ fun h hh => by
      simp only [busHandlers, defaultPipeline, List.mem_cons, List.not_mem_nil, or_false] at hh
      rw [hh]
      exact defaultHandler_preserves cfg .FEEDBACK_COLLECTION

/-- Witness for C6 at a concrete input: emitting a feedback event on the
default pipeline (whose single registered handler preserves history) appends
exactly that event, and the handler dispatch saw it as the last element. -/
theorem emit_append_before_observers_and_append_only_witness :
    (emit (defaultPipeline DEFAULT_CONFIG)
        { stage := .FEEDBACK_COLLECTION, data := .feedbackData ⟨some 5, none⟩ }
        (freshContext "s" none)).history
      = [{ stage := .FEEDBACK_COLLECTION,
           data := .feedbackData ⟨some 5, none⟩ }]
    ∧ (submitFeedbackCtx (defaultPipeline DEFAULT_CONFIG)
        ⟨some 5, none⟩ (freshContext "s" none)).history
      = [{ stage := .FEEDBACK_COLLECTION,
           data := .feedbackData ⟨some 5, none⟩ }] := by
  constructor
  · have h := (emit_append_before_observers_and_append_only.1 (defaultPipeline DEFAULT_CONFIG)
      { stage := .FEEDBACK_COLLECTION, data := .feedbackData ⟨some 5, none⟩ }
      (freshContext "s" none) (fun h hh => by
        simp only [busHandlers, defaultPipeline, List.mem_cons, List.not_mem_nil, or_false] at hh
        rw [hh]
        exact defaultHandler_preserves DEFAULT_CONFIG .FEEDBACK_COLLECTION)).2
    simpa using h
  · have h := emit_append_before_observers_and_append_only.2.2.2 DEFAULT_CONFIG
      ⟨some 5, none⟩ (freshContext "s" none)
    simpa using h

theorem mapGet_mapSet_ne (l : List (StrategyType × List ℚ)) (k : StrategyType) (v : List ℚ)
    (s : StrategyType) (h : s ≠ k) : mapGet (mapSet l k v) s = mapGet l s := by
  induction l with
  | nil =>
      simp only [mapSet, mapGet]
      rw [if_neg (fun hk => h hk.symm)]
  | cons p t ih =>
      by_cases hk : p.1 = k
      · simp only [mapSet, if_pos hk, mapGet]
        rw [if_neg (fun hs => h (hs.symm.trans hk))]
        rw [if_neg (fun hs => h (hs.symm.trans hk))]
      · simp only [mapSet, if_neg hk, mapGet]
        split
        · rfl
        · exact ih

theorem feedbackToReward_bounds (feedback : UserFeedback) :
    0 ≤ feedbackToReward feedback ∧ feedbackToReward feedback ≤ 1 := by
  unfold feedbackToReward
  exact ⟨le_min (by norm_num) (le_max_left 0 _), min_le_left 1 _⟩

theorem updateFromFeedback_rewardHistory (m : PreferenceModel) (context : ContextFeatures)
    (strategy : StrategyType) (feedback : UserFeedback) :
    (updateFromFeedback m context strategy feedback).rewardHistory
      = m.rewardHistory
          ++ [{ context := context, strategy := strategy, reward := feedbackToReward feedback }] :=
  rfl

theorem modelAfter_length (n : ℕ) : (modelAfter n).rewardHistory.length = n := by
  induction n with
  | zero => rfl
  | succ k ih =>
      unfold modelAfter at *
      rw [Function.iterate_succ_apply']
      show (updateFromFeedback _ _ _ _).rewardHistory.length = k + 1
      rw [updateFromFeedback_rewardHistory]
      simp [ih]

theorem modelAfter_reachable (n : ℕ) : ReachableModel (modelAfter n) := by
  induction n with
  | zero =>
      exact ReachableModel.init zeroWeights (fun s => by simp [zeroWeights])
        (fun s q hq => by
          simp only [zeroWeights] at hq
          rw [List.eq_of_mem_replicate hq]
          norm_num)
  | succ k ih =>
      unfold modelAfter at *
      rw [Function.iterate_succ_apply']
      exact ReachableModel.update _ _ _ _ ih

theorem jsMapOfEntries_arr_ok (es : List Json) (acc : List (Option Json × Option Json))
    (h : ∀ e ∈ es, ∃ l, e = Json.arr l) :
    ∃ r, jsMapOfEntries es acc = .ok r := by
  induction es generalizing acc with
  | nil => exact ⟨acc, rfl⟩
  | cons e t ih =>
      obtain ⟨l, rfl⟩ := h e (List.mem_cons_self e t)
      simp only [jsMapOfEntries, jsEntry]
      exact ih _ fun e1 he1 => h e1 (List.mem_cons_of_mem _ he1)

theorem import_export_roundtrip (m : PreferenceModel) (r0 : RawPreferenceState) :
    (importModel (some (exportModel m)) r0).2 = false
    ∧ rawTotalIterations (importModel (some (exportModel m)) r0).1
        = some (m.totalIterations : ℚ)
    ∧ rawRewardHistoryLength (importModel (some (exportModel m)) r0).1
        = some (min m.rewardHistory.length 100) := by
  obtain ⟨r, hr⟩ := jsMapOfEntries_arr_ok
    (m.strategyWeights.map fun p =>
      Json.arr [Json.str (strategyTypeStr p.1), Json.arr (p.2.map Json.num)]) []
    (by
      intro e he
      simp only [List.mem_map] at he
      obtain ⟨p, -, rfl⟩ := he
      exact ⟨_, rfl⟩)
  have hw : jsField (exportModel m) "weights"
      = some (Json.arr (m.strategyWeights.map fun p =>
          Json.arr [Json.str (strategyTypeStr p.1), Json.arr (p.2.map Json.num)])) := by
    simp [exportModel, jsField, jsLookupField]
  have himp : importModel (some (exportModel m)) r0
      = ({ strategyWeights := r
           explorationRate := jsField (exportModel m) "explorationRate"
           totalIterations := jsField (exportModel m) "totalIterations"
           rewardHistory := jsField (exportModel m) "rewardHistory" }, false) := by
    show (match jsNewMap (jsField (exportModel m) "weights") with
      | .error _ => (r0, true)
      | .ok entries =>
          (({ strategyWeights := entries
              explorationRate := jsField (exportModel m) "explorationRate"
              totalIterations := jsField (exportModel m) "totalIterations"
              rewardHistory := jsField (exportModel m) "rewardHistory" } : RawPreferenceState),
            false)) = _
    rw [hw]
    show (match jsMapOfEntries _ [] with
      | .error _ => (r0, true)
      | .ok entries => (_, false)) = _
    rw [hr]
  rw [himp]
  refine ⟨rfl, ?_, ?_⟩
  · have : jsField (exportModel m) "totalIterations" = some (Json.num (m.totalIterations : ℚ)) := by
      simp [exportModel, jsField, jsLookupField]
    simp [rawTotalIterations, this]
  · have : jsField (exportModel m) "rewardHistory"
        = some (Json.arr ((m.rewardHistory.drop
            (m.rewardHistory.length - 100)).map encodeRewardEntry)) := by
      simp [exportModel, jsField, jsLookupField]
    simp only [rawRewardHistoryLength, this, List.length_map, List.length_drop]
    congr 1
    omega

/-- C5: every `updateFromFeedback` call appends exactly one entry to
`rewardHistory`, the appended reward is the clamped-to-[0,1] feedback score,
only the chosen strategy's entry of the weight map can change — every other
strategy's weight vector is left identical — and the exploration rate and
iteration counter are untouched. -/
theorem updateFromFeedback_reward_and_frame (m : PreferenceModel) (context : ContextFeatures)
    (strategy : StrategyType) (feedback : UserFeedback) :
    (updateFromFeedback m context strategy feedback).rewardHistory.length
      = m.rewardHistory.length + 1
    ∧ (updateFromFeedback m context strategy feedback).rewardHistory
      = m.rewardHistory
          ++ [{ context := context, strategy := strategy, reward := feedbackToReward feedback }]
    ∧ 0 ≤ feedbackToReward feedback ∧ feedbackToReward feedback ≤ 1
    ∧ (∀ s, s ≠ strategy →
        mapGet (updateFromFeedback m context strategy feedback).strategyWeights s
          = mapGet m.strategyWeights s)
    ∧ (updateFromFeedback m context strategy feedback).explorationRate = m.explorationRate
    ∧ (updateFromFeedback m context strategy feedback).totalIterations = m.totalIterations := by
  refine ⟨?_, updateFromFeedback_rewardHistory m context strategy feedback,
    (feedbackToReward_bounds feedback).1, (feedbackToReward_bounds feedback).2,
    fun s hs => ?_, rfl, rfl⟩
  · rw [updateFromFeedback_rewardHistory]
    simp
  · show mapGet (mapSet m.strategyWeights strategy _) s = mapGet m.strategyWeights s
    exact mapGet_mapSet_ne _ _ _ _ hs

/-- Witness for C5 at a concrete input: one update on a fresh zero-weight
model grows the history to one entry, stores a clamped reward, and leaves the
`GUIDED` weight vector identical. -/
theorem updateFromFeedback_reward_and_frame_witness :
    (updateFromFeedback (PreferenceModel.init zeroWeights) sampleContext .AUTONOMOUS
        { rating := some 5, implicit := some { taskCompleted := true, timeToCompletion := 30, editsMade := 0 } }).rewardHistory.length
      = 1
    ∧ mapGet (updateFromFeedback (PreferenceModel.init zeroWeights) sampleContext .AUTONOMOUS
        { rating := some 5, implicit := some { taskCompleted := true, timeToCompletion := 30, editsMade := 0 } }).strategyWeights
        .GUIDED
      = mapGet (PreferenceModel.init zeroWeights).strategyWeights .GUIDED := by
  constructor
  · have h := (updateFromFeedback_reward_and_frame (PreferenceModel.init zeroWeights)
      sampleContext .AUTONOMOUS
      { rating := some 5,
        implicit := some { taskCompleted := true, timeToCompletion := 30, editsMade := 0 } }).1
    rw [h]
    rfl
  · exact (updateFromFeedback_reward_and_frame (PreferenceModel.init zeroWeights)
      sampleContext .AUTONOMOUS
      { rating := some 5,
        implicit := some { taskCompleted := true, timeToCompletion := 30, editsMade := 0 } }).2.2.2.2.1
      .GUIDED (by decide)

/-- Counterexample to C7 as stated: the state reached by 101 feedback updates
is reachable and has 101 reward-history entries, but the export/import round
trip restores only 100 of them — `exportModel` serializes at most the 100 most
recent entries, so the round trip does not reproduce `rewardHistory.length`
on every reachable state. -/
theorem export_import_cap_counterexample :
    ReachableModel (modelAfter 101)
    ∧ (modelAfter 101).rewardHistory.length = 101
    ∧ rawRewardHistoryLength
        (importModel (some (exportModel (modelAfter 101))) freshRaw).1 = some 100
    ∧ (100 : ℕ) ≠ 101 := by
  refine ⟨modelAfter_reachable 101, modelAfter_length 101, ?_, by decide⟩
  rw [(import_export_roundtrip (modelAfter 101) freshRaw).2.2, modelAfter_length 101]
  congr 1

/-- C7 as amended: importing an exported model into a freshly constructed
model of the same configuration reports no error and yields a state whose
`totalIterations` equals the original's and whose `rewardHistory.length`
equals `min(original length, 100)` — `exportModel` serializes at most the 100
most recent reward-history entries, so the lengths agree exactly when the
original history holds at most 100 entries. -/
theorem export_import_roundtrip_amended (m : PreferenceModel) (r0 : RawPreferenceState) :
    (importModel (some (exportModel m)) r0).2 = false
    ∧ rawTotalIterations (importModel (some (exportModel m)) r0).1
        = some (m.totalIterations : ℚ)
    ∧ rawRewardHistoryLength (importModel (some (exportModel m)) r0).1
        = some (min m.rewardHistory.length 100) :=
  import_export_roundtrip m r0

/-- Counterexample to C8 as stated: the input `"{}"` is valid JSON but a
malformed payload; `importModel` reports no error yet overwrites all four
state fields with the missing payload's (undefined) values, so the model state
is neither left as it was nor replaced by a well-formed parsed payload. -/
theorem importModel_malformed_commit_counterexample :
    (importModel (some (Json.obj [])) freshRaw).2 = false
    ∧ (importModel (some (Json.obj [])) freshRaw).1.strategyWeights = []
    ∧ (importModel (some (Json.obj [])) freshRaw).1.explorationRate = none
    ∧ (importModel (some (Json.obj [])) freshRaw).1.totalIterations = none
    ∧ (importModel (some (Json.obj [])) freshRaw).1.rewardHistory = none
    ∧ freshRaw.explorationRate = some (Json.num 1)
    ∧ (importModel (some (Json.obj [])) freshRaw).1.explorationRate
        ≠ freshRaw.explorationRate := by
  refine ⟨rfl, rfl, rfl, rfl, rfl, rfl, ?_⟩
  have h1 : (importModel (some (Json.obj [])) freshRaw).1.explorationRate = none := rfl
  have h2 : freshRaw.explorationRate = some (Json.num 1) := rfl
  rw [h1, h2]
  exact fun h => Option.noConfusion h

/-- C8 as amended: `importModel` is all-or-nothing — whenever it reports an
error (the input fails JSON parsing, parses to `null`, or carries a `weights`
value that `new Map` rejects) the model state is left exactly as it was, and
whenever it reports no error the committed state is a function of the payload
alone, independent of the prior state (no stale fields are mixed with fresh
ones); an unparseable input is always reported.  The payload is, however,
installed without validation, so valid-JSON malformed payloads are committed
wholesale (see the counterexample).  The last two conjuncts pin the `Map`
constructor boundary at concrete payloads: a string `weights` value `"ab"`
throws (its iterated characters are primitives, not Objects), so the state is
kept and the error reported, while an object item `{}` is a valid entry
(`Get(item, "0")`/`Get(item, "1")`, both `undefined`) and commits. -/
theorem importModel_all_or_nothing_amended :
    (∀ (input : Option Json) (r : RawPreferenceState),
      (importModel input r).2 = true → (importModel input r).1 = r)
    ∧ (∀ (input : Option Json) (r r2 : RawPreferenceState),
      (importModel input r).2 = false → (importModel input r).1 = (importModel input r2).1)
    ∧ (∀ r : RawPreferenceState, importModel none r = (r, true))
    ∧ (∀ r : RawPreferenceState,
      importModel (some (Json.obj [("weights", Json.str "ab")])) r = (r, true))
    ∧ (∀ r : RawPreferenceState,
      (importModel (some (Json.obj [("weights", Json.arr [Json.obj []])])) r).2 = false
      ∧ (importModel (some (Json.obj [("weights", Json.arr [Json.obj []])])) r).1.strategyWeights
          = [(none, none)]) := by
  refine ⟨fun input r h => ?_, fun input r r2 h => ?_, fun r => rfl, fun r => rfl,
    fun r => ⟨rfl, rfl⟩⟩
  · cases input with
    | none => rfl
    | some j =>
        cases j with
        | null => rfl
        | obj fs =>
            simp only [importModel] at h ⊢
            cases hw : jsNewMap (jsField (Json.obj fs) "weights") with
            | error u => rfl
            | ok entries => rw [hw] at h; simp at h
        | bool b => rw [show importModel (some (Json.bool b)) r = (_, false) from rfl] at h; simp at h
        | num q => rw [show importModel (some (Json.num q)) r = (_, false) from rfl] at h; simp at h
        | str s => rw [show importModel (some (Json.str s)) r = (_, false) from rfl] at h; simp at h
        | arr es => rw [show importModel (some (Json.arr es)) r = (_, false) from rfl] at h; simp at h
  · cases input with
    | none => simp [importModel] at h
    | some j =>
        cases j with
        | null => simp [importModel] at h
        | obj fs =>
            simp only [importModel] at h ⊢
            cases hw : jsNewMap (jsField (Json.obj fs) "weights") with
            | error u => rw [hw] at h; simp at h
            | ok entries => rfl
        | bool b => rfl
        | num q => rfl
        | str s => rfl
        | arr es => rfl

/-- Witness for the amended C8 at a concrete input: a parse failure reports an
error and leaves the fresh state exactly as it was. -/
theorem importModel_all_or_nothing_amended_witness :
    importModel none freshRaw = (freshRaw, true)
    ∧ (importModel none freshRaw).1 = freshRaw :=
  ⟨importModel_all_or_nothing_amended.2.2.1 freshRaw,
    importModel_all_or_nothing_amended.1 none freshRaw rfl⟩
